import Mathlib

/-!
Verification of the `prompt_plugin` repository: a shallow embedding of the
enhancement pipeline (`enhancer.py`), the template registry (`templates.py`),
the history store (`history.py`) and the orchestrator (`engine.py`), with
theorems settling the specification claims.

Python strings are modelled as `List Char`; machine-level concerns do not
arise (all arithmetic is on small naturals / arbitrary-precision ints, which
Python also uses).
-/

namespace PromptPlugin

/-- Python strings are modelled as lists of characters. -/
abbrev Str := List Char

/-- Shorthand turning a Lean string literal into the model's string type. -/
def S (s : String) : Str := s.toList

/-- The whitespace set of Python's `str.split()` / `str.strip()`
(space, tab, newline, carriage return, vertical tab, form feed). -/
def pyWs (c : Char) : Bool :=
  c == ' ' || c == '\t' || c == '\n' || c == '\r' || c == '\x0b' || c == '\x0c'

/-- Python `str.strip()`: drop leading and trailing whitespace. -/
def pyStrip (s : Str) : Str :=
  ((s.dropWhile pyWs).reverse.dropWhile pyWs).reverse

/-- Word counter used to model `len(s.split())`.  The flag records whether the
previously processed character was part of a word. -/
def wcAux : Bool → Str → Nat
  | _, [] => 0
  | inw, c :: rest =>
    if pyWs c then wcAux false rest
    else (if inw then 0 else 1) + wcAux true rest

/-- `len(s.split())` in Python: the number of maximal whitespace-free runs. -/
def wordCount (s : Str) : Nat := wcAux false s

/-- The in-word flag after processing a string (used to reason about
`wordCount` of concatenations). -/
def flagAfter : Bool → Str → Bool
  | b, [] => b
  | _, c :: rest => flagAfter (!pyWs c) rest

/-- Python `str.lower()` (ASCII case mapping, which is all the code uses). -/
def pyLower (s : Str) : Str := s.map Char.toLower

/-- `pat` begins the string `s`. -/
def leadsWith : Str → Str → Bool
  | [], _ => true
  | _ :: _, [] => false
  | p :: ps, c :: cs => p == c && leadsWith ps cs

/-- Index of the first occurrence of `pat` in `s`, if any. -/
def findOcc (pat : Str) : Str → Option Nat
  | [] => if leadsWith pat [] then some 0 else none
  | c :: rest =>
    if leadsWith pat (c :: rest) then some 0
    else (findOcc pat rest).map (· + 1)

/-- Python's `pat in s` substring test. -/
def containsSub (s pat : Str) : Bool := (findOcc pat s).isSome

/-- Fuel-driven worker for Python `str.replace`: replace each occurrence of
`pat` left to right, non-overlapping.  Each step consumes at least one
character of `text` when `pat` is nonempty, so `text.length` fuel suffices. -/
def replaceFuel (pat rep : Str) : Nat → Str → Str
  | 0, text => text
  | fuel + 1, text =>
    match findOcc pat text with
    | none => text
    | some i => text.take i ++ rep ++ replaceFuel pat rep fuel (text.drop (i + pat.length))

/-- Python `text.replace(pat, rep)`.  For the empty pattern Python inserts
`rep` before every character and at the end. -/
def pyReplace (text pat rep : Str) : Str :=
  if pat.isEmpty then rep ++ text.flatMap (fun c => c :: rep)
  else replaceFuel pat rep text.length text

/-- Fuel-driven worker for splitting on every occurrence of `pat`. -/
def splitFuel (pat : Str) : Nat → Str → List Str
  | 0, text => [text]
  | fuel + 1, text =>
    match findOcc pat text with
    | none => [text]
    | some i => text.take i :: splitFuel pat fuel (text.drop (i + pat.length))

/-- Split `text` at every non-overlapping occurrence of `pat`
(Python `text.split(pat)` for nonempty `pat`). -/
def pySplitOn (text pat : Str) : List Str :=
  if pat.isEmpty then [text] else splitFuel pat text.length text

/-- Join a list of strings with a separator (Python `sep.join(parts)`). -/
def joinWith (sep : Str) : List Str → Str
  | [] => []
  | [x] => x
  | x :: y :: rest => x ++ sep ++ joinWith sep (y :: rest)

/-! ## Data model (`models.py`) -/

/-- `Tone` enumeration from `models.py`. -/
inductive Tone
  | professional | casual | technical | creative | academic | friendly
  deriving DecidableEq, Fintype

/-- `TaskCategory` enumeration from `models.py`, in declaration order. -/
inductive TaskCategory
  | coding | writing | analysis | brainstorming | summarization | translation
  | debugging | explanation | general
  deriving DecidableEq, Fintype

/-! ## Category detection (`enhancer.py`) -/

/-- `_CATEGORY_KEYWORDS` from `enhancer.py`; categories without an entry
(`general`) have no keywords. -/
def categoryKeywords : TaskCategory → List Str
  | .coding =>
      [S "code", S "function", S "class", S "script", S "program", S "implement",
       S "api", S "bug", S "error", S "syntax", S "compile", S "algorithm",
       S "database", S "sql", S "python", S "javascript", S "typescript",
       S "java", S "rust", S "html", S "css", S "react", S "django", S "flask",
       S "fastapi", S "node", S "docker", S "git"]
  | .debugging =>
      [S "debug", S "fix", S "error", S "traceback", S "exception", S "crash",
       S "broken", S "not working", S "fails", S "issue", S "stack trace",
       S "segfault"]
  | .writing =>
      [S "write", S "draft", S "compose", S "essay", S "article", S "blog",
       S "email", S "letter", S "copy", S "content", S "narrative", S "story",
       S "report"]
  | .analysis =>
      [S "analyze", S "analyse", S "compare", S "evaluate", S "assess",
       S "review", S "pros and cons", S "tradeoff", S "benchmark", S "metrics",
       S "data"]
  | .brainstorming =>
      [S "brainstorm", S "ideas", S "suggest", S "creative", S "innovate",
       S "think of", S "come up with", S "generate ideas", S "possibilities"]
  | .summarization =>
      [S "summarize", S "summarise", S "summary", S "tldr", S "tl;dr",
       S "key points", S "brief", S "condense", S "shorten", S "recap"]
  | .translation =>
      [S "translate", S "translation", S "convert to", S "in spanish",
       S "in french", S "in german", S "in japanese", S "in chinese",
       S "in hindi", S "localize"]
  | .explanation =>
      [S "explain", S "what is", S "how does", S "how do", S "why does",
       S "teach me", S "eli5", S "definition", S "meaning of", S "concept of",
       S "understand"]
  | .general => []

/-- Keyword score of one category: the number of its keywords occurring as
substrings of the lower-cased text (`scores[category]` in `detect_category`). -/
def catScore (text : Str) (cat : TaskCategory) : Nat :=
  (categoryKeywords cat).countP (fun kw => containsSub (pyLower text) kw)

/-- Iteration order of the `scores` dict in `detect_category`: insertion order
of `{cat: 0 for cat in TaskCategory}`, i.e. enum declaration order. -/
def categoryOrder : List TaskCategory :=
  [.coding, .writing, .analysis, .brainstorming, .summarization, .translation,
   .debugging, .explanation, .general]

/-- Python `max(scores, key=scores.get)` over the remaining categories given a
current best: keeps the earlier element on ties. -/
def argmaxFirst (f : TaskCategory → Nat) : List TaskCategory → TaskCategory → TaskCategory
  | [], best => best
  | c :: rest, best => argmaxFirst f rest (if f best < f c then c else best)

/-- `detect_category` from `enhancer.py`. -/
def detect_category (text : Str) : TaskCategory :=
  if 0 < catScore text .debugging ∧ 0 < catScore text .coding ∧
      catScore text .coding ≤ catScore text .debugging then
    .debugging
  else
    let best := argmaxFirst (catScore text) (categoryOrder.drop 1) .coding
    if 0 < catScore text best then best else .general

/-! ## Tone, role, structure and guardrail texts (`enhancer.py`) -/

/-- `_TONE_INSTRUCTIONS` / `get_tone_instruction`.  The dict covers every
`Tone` member, so the `.get` fallback to `professional` never fires. -/
def get_tone_instruction : Tone → Str
  | .professional => S "Use a professional, clear, and business-appropriate tone."
  | .casual => S "Use a relaxed, conversational tone — like chatting with a friend."
  | .technical => S "Use precise technical language with proper terminology."
  | .creative => S "Be creative, expressive, and imaginative in your response."
  | .academic => S "Use formal academic language with proper citations style."
  | .friendly => S "Be warm, approachable, and encouraging in your response."

/-- The `roles` dict of `_add_role_framing`; every category is present, so
`roles.get(category, roles[general])` is a total lookup. -/
def roleText : TaskCategory → Str
  | .coding => S "You are an expert software engineer with deep knowledge of best practices."
  | .debugging => S "You are a senior developer skilled at diagnosing and fixing complex bugs."
  | .writing => S "You are a skilled writer who crafts engaging, well-structured content."
  | .analysis => S "You are a data analyst who provides clear, evidence-based insights."
  | .brainstorming => S "You are a creative strategist who generates innovative solutions."
  | .explanation => S "You are a patient teacher who explains complex topics clearly."
  | .summarization => S "You are an editor who distills information to its essential points."
  | .translation => S "You are a professional translator who preserves meaning and nuance."
  | .general => S "You are a helpful, knowledgeable assistant."

/-- The `structure_hints` dict of `_add_structure_request`: defined for seven
categories, absent for `translation` and `general`. -/
def structureHint : TaskCategory → Option Str
  | .coding => some (S "\n\nStructure your response with: explanation, code, and usage example.")
  | .analysis => some (S "\n\nOrganize your analysis with clear sections, bullet points, and a conclusion.")
  | .writing => some (S "\n\nUse proper headings, paragraphs, and a logical flow.")
  | .explanation => some (S "\n\nStart with a simple overview, then progressively add detail.")
  | .debugging => some (S "\n\nStructure: identify the bug → explain the cause → provide the fix → suggest prevention.")
  | .brainstorming => some (S "\n\nPresent ideas in a numbered list with brief descriptions.")
  | .summarization => some (S "\n\nProvide an executive summary, then key bullet points.")
  | .translation => none
  | .general => none

/-- The specificity request text of `_add_specificity` (two adjacent Python
string literals, concatenated). -/
def specificityText : Str :=
  S "\n\nPlease be specific and detailed in your response. Include concrete examples where relevant."

/-- The guardrails text of `_add_quality_guardrails`. -/
def guardrailsText : Str :=
  S "\n\nImportant guidelines:\n- If you\x27re unsure about something, say so rather than guessing\n- Prioritize accuracy over completeness\n- Use concrete examples to illustrate points"

/-- `_add_role_framing`: prepend the category persona; always applies. -/
def add_role_framing (prompt : Str) (category : TaskCategory) : Str × Bool :=
  (roleText category ++ S "\n\n" ++ prompt, true)

/-- `_add_specificity`: the word count is the caller-supplied count of the
original raw prompt when positive, otherwise the count of the accumulated
prompt text. -/
def add_specificity (prompt : Str) (original_word_count : Nat) : Str × Bool :=
  let wc := if 0 < original_word_count then original_word_count else wordCount prompt
  if wc < 8 then (prompt ++ specificityText, true) else (prompt, false)

/-- `_add_structure_request`: append the category's structural hint if any. -/
def add_structure_request (prompt : Str) (category : TaskCategory) : Str × Bool :=
  match structureHint category with
  | some hint => (prompt ++ hint, true)
  | none => (prompt, false)

/-- `_add_quality_guardrails`: always applies. -/
def add_quality_guardrails (prompt : Str) : Str × Bool :=
  (prompt ++ guardrailsText, true)

/-- Python truthiness of the optional `extra_context` string
(`None` and the empty string are falsy). -/
def ctxTruthy : Option Str → Bool
  | none => false
  | some s => !s.isEmpty

/-- The string carried by an optional context (empty for `None`). -/
def ctxVal : Option Str → Str
  | none => []
  | some s => s

/-- `category or detect_category(raw_prompt)`: every `TaskCategory` member is
truthy, so a supplied override always wins. -/
def resolvedCategory (raw : Str) (category : Option TaskCategory) : TaskCategory :=
  match category with
  | some c => c
  | none => detect_category raw

/-- `enhance_prompt` from `enhancer.py`: returns
`(enhanced_text, detected_category, techniques_applied)`. -/
def enhance_prompt (raw_prompt : Str) (tone : Tone) (category : Option TaskCategory)
    (extra_context : Option Str) : Str × TaskCategory × List Str :=
  let detected := resolvedCategory raw_prompt category
  let prompt0 := pyStrip raw_prompt
  let step1 := add_role_framing prompt0 detected
  let techs1 : List Str := if step1.2 then [S "role_framing"] else []
  let prompt2 := step1.1 ++ S "\n\n" ++ get_tone_instruction tone
  let techs2 := techs1 ++ [S "tone_styling"]
  let step3 := add_specificity prompt2 (wordCount raw_prompt)
  let techs3 := techs2 ++ (if step3.2 then [S "specificity_boost"] else [])
  let step4 := add_structure_request step3.1 detected
  let techs4 := techs3 ++ (if step4.2 then [S "structure_guidance"] else [])
  let prompt5 :=
    if ctxTruthy extra_context then
      step4.1 ++ S "\n\nAdditional context:\n" ++ ctxVal extra_context
    else step4.1
  let techs5 := techs4 ++ (if ctxTruthy extra_context then [S "context_injection"] else [])
  let step6 := add_quality_guardrails prompt5
  let techs6 := techs5 ++ (if step6.2 then [S "quality_guardrails"] else [])
  (step6.1, detected, techs6)

/-! ## Template registry (`templates.py`) -/

/-- `TemplateInfo` from `models.py`. -/
structure TemplateInfo where
  id : Str
  name : Str
  category : TaskCategory
  description : Str
  template : Str
  /-- the `variables` field of `TemplateInfo` -/
  vars : List Str
  deriving DecidableEq

/-- The `code-write` template. -/
def tCodeWrite : TemplateInfo :=
  { id := S "code-write"
    name := S "Write Code"
    category := .coding
    description := S "Generate clean, well-documented code for a given task"
    template := S "Write {language} code that accomplishes the following:\n\n{task_description}\n\nRequirements:\n- Follow best practices and idiomatic patterns for {language}\n- Include clear comments explaining the logic\n- Handle edge cases and errors gracefully\n- Provide example usage"
    vars := [S "language", S "task_description"] }

/-- The `code-review` template. -/
def tCodeReview : TemplateInfo :=
  { id := S "code-review"
    name := S "Code Review"
    category := .coding
    description := S "Get a thorough code review with actionable suggestions"
    template := S "Perform a detailed code review of the following code:\n\n```{language}\n{code}\n```\n\nEvaluate for:\n1. Correctness and potential bugs\n2. Performance and efficiency\n3. Readability and maintainability\n4. Security concerns\n5. Adherence to {language} best practices\n\nProvide specific, actionable suggestions with code examples."
    vars := [S "language", S "code"] }

/-- The `code-debug` template. -/
def tCodeDebug : TemplateInfo :=
  { id := S "code-debug"
    name := S "Debug Code"
    category := .debugging
    description := S "Systematically debug code issues"
    template := S "I have the following {language} code that is producing an error:\n\n```{language}\n{code}\n```\n\nError message: {error_message}\n\nPlease:\n1. Identify the root cause of the error\n2. Explain why the error occurs\n3. Provide the corrected code\n4. Suggest how to prevent similar issues"
    vars := [S "language", S "code", S "error_message"] }

/-- The `write-article` template. -/
def tWriteArticle : TemplateInfo :=
  { id := S "write-article"
    name := S "Write Article"
    category := .writing
    description := S "Create a well-structured article on any topic"
    template := S "Write a comprehensive article about: {topic}\n\nTarget audience: {audience}\nDesired length: {length}\n\nStructure the article with:\n- An engaging introduction that hooks the reader\n- Well-organized sections with clear headings\n- Supporting evidence, examples, or data points\n- A compelling conclusion with key takeaways\n\nTone: {tone}"
    vars := [S "topic", S "audience", S "length", S "tone"] }

/-- The `write-email` template. -/
def tWriteEmail : TemplateInfo :=
  { id := S "write-email"
    name := S "Compose Email"
    category := .writing
    description := S "Draft a professional or casual email"
    template := S "Draft an email with the following details:\n\nPurpose: {purpose}\nRecipient: {recipient}\nKey points to cover:\n{key_points}\n\nTone: {tone}\nKeep it concise and action-oriented."
    vars := [S "purpose", S "recipient", S "key_points", S "tone"] }

/-- The `analyze-data` template. -/
def tAnalyzeData : TemplateInfo :=
  { id := S "analyze-data"
    name := S "Analyze Data"
    category := .analysis
    description := S "Get structured analysis of data or information"
    template := S "Analyze the following data/information:\n\n{data}\n\nPlease provide:\n1. Key findings and patterns\n2. Notable outliers or anomalies\n3. Trends and correlations\n4. Actionable insights and recommendations\n5. Limitations of this analysis\n\nFocus area: {focus_area}"
    vars := [S "data", S "focus_area"] }

/-- The `compare-options` template. -/
def tCompareOptions : TemplateInfo :=
  { id := S "compare-options"
    name := S "Compare Options"
    category := .analysis
    description := S "Get a structured comparison of multiple options"
    template := S "Compare the following options:\n\n{options}\n\nEvaluation criteria: {criteria}\n\nFor each option provide:\n- Pros and cons\n- Best use cases\n- Cost/effort considerations\n- Final recommendation with justification"
    vars := [S "options", S "criteria"] }

/-- The `brainstorm-ideas` template. -/
def tBrainstormIdeas : TemplateInfo :=
  { id := S "brainstorm-ideas"
    name := S "Brainstorm Ideas"
    category := .brainstorming
    description := S "Generate creative ideas for a topic or problem"
    template := S "Generate creative and diverse ideas for:\n\n{topic}\n\nConstraints: {constraints}\n\nPlease provide:\n- At least 10 unique ideas ranging from practical to innovative\n- A brief description of each idea\n- Why each idea could work\n- Quick feasibility rating (Easy / Medium / Hard)"
    vars := [S "topic", S "constraints"] }

/-- The `summarize-text` template. -/
def tSummarizeText : TemplateInfo :=
  { id := S "summarize-text"
    name := S "Summarize Text"
    category := .summarization
    description := S "Create concise summaries of long content"
    template := S "Summarize the following content:\n\n{content}\n\nProvide:\n1. A one-paragraph executive summary\n2. Key bullet points (5-7 items)\n3. Important details that shouldn\x27t be missed\n4. Action items or next steps (if applicable)"
    vars := [S "content"] }

/-- The `explain-concept` template. -/
def tExplainConcept : TemplateInfo :=
  { id := S "explain-concept"
    name := S "Explain Concept"
    category := .explanation
    description := S "Get a clear explanation of any concept"
    template := S "Explain the concept of: {concept}\n\nTarget knowledge level: {level}\n\nPlease include:\n- A simple, intuitive explanation\n- A real-world analogy\n- Key terminology defined\n- A practical example\n- Common misconceptions to avoid\n- Resources for deeper learning"
    vars := [S "concept", S "level"] }

/-- The `eli5` template. -/
def tEli5 : TemplateInfo :=
  { id := S "eli5"
    name := S "Explain Like I\x27m 5"
    category := .explanation
    description := S "Super-simple explanation for complex topics"
    template := S "Explain {concept} in the simplest possible terms, as if I\x27m 5 years old.\n\nUse:\n- Everyday analogies and examples\n- Short, simple sentences\n- No jargon or technical terms\n- A fun, engaging tone"
    vars := [S "concept"] }

/-- The `translate-text` template. -/
def tTranslateText : TemplateInfo :=
  { id := S "translate-text"
    name := S "Translate Text"
    category := .translation
    description := S "Translate text while preserving meaning and nuance"
    template := S "Translate the following text from {source_language} to {target_language}:\n\n{text}\n\nRequirements:\n- Preserve the original meaning, tone, and nuance\n- Use natural phrasing in the target language\n- Note any cultural context that affects the translation\n- Flag any ambiguous phrases with alternative translations"
    vars := [S "source_language", S "target_language", S "text"] }

/-- The `TEMPLATES` registry in registration order (dict ids are unique). -/
def TEMPLATES : List TemplateInfo :=
  [tCodeWrite, tCodeReview, tCodeDebug, tWriteArticle, tWriteEmail,
   tAnalyzeData, tCompareOptions, tBrainstormIdeas, tSummarizeText,
   tExplainConcept, tEli5, tTranslateText]

/-- `TEMPLATES.get(template_id)` / `get_template`. -/
def lookupTemplate (tid : Str) : Option TemplateInfo :=
  TEMPLATES.find? (fun t => t.id == tid)

/-- The placeholder token `"{" + var + "}"` of `render_template`. -/
def placeholder (var : Str) : Str := '\x7b' :: (var ++ ['\x7d'])

/-- The bracketed marker `f"[{var}]"` used for missing variables. -/
def brackVar (var : Str) : Str := '[' :: (var ++ [']'])

/-- `variables.get(var)` on a Python `dict[str, str]` modelled as an
association list with distinct keys. -/
def getVar (vars : List (Str × Str)) (k : Str) : Option Str :=
  (vars.find? (fun p => p.1 == k)).map (·.2)

/-- The substitution loop of `render_template`:
`for var in tmpl.variables: result = result.replace("{"+var+"}", variables.get(var, f"[{var}]"))`. -/
def renderLoop (vars : List (Str × Str)) : List Str → Str → Str
  | [], acc => acc
  | v :: rest, acc =>
      renderLoop vars rest (pyReplace acc (placeholder v) ((getVar vars v).getD (brackVar v)))

/-- The errors the modelled code can raise: `ValueError` for an unknown
template id (the spec's `NotFoundError`), and the `AttributeError` /
`TypeError` escaping from `render_template` when the engine passes it a
non-dict or non-string JSON value. -/
inductive PluginError
  | notFound
  | attributeErr
  | typeErr
  deriving DecidableEq

/-- `render_template` from `templates.py`, called with a proper
`dict[str, str]` mapping (as the API layer does). -/
def render_template (tid : Str) (vars : List (Str × Str)) : Except PluginError Str :=
  match lookupTemplate tid with
  | none => .error .notFound
  | some t => .ok (renderLoop vars t.vars t.template)

/-- Substituting every non-overlapping occurrence of `pat` by `rep`, phrased
as split-at-every-occurrence-and-join.  Used by the spec-side rendering
definition for the refinement claim about `render_template`. -/
def substEveryOcc (text pat rep : Str) : Str := joinWith rep (pySplitOn text pat)

/-- Modelled from the spec (section 4.3 render algorithm), for the refinement
claim C6: for each declared variable name in declared order, substitute every
literal occurrence of its placeholder token with the provided value, or with
the bracketed marker when the value is absent. -/
def renderLoopSpec (vars : List (Str × Str)) : List Str → Str → Str
  | [], acc => acc
  | v :: rest, acc =>
      renderLoopSpec vars rest
        (substEveryOcc acc (placeholder v) ((getVar vars v).getD (brackVar v)))

/-- Spec-side `render`: unknown ids fail, otherwise every placeholder
occurrence is substituted in declared-variable order. -/
def render_template_spec (tid : Str) (vars : List (Str × Str)) : Except PluginError Str :=
  match lookupTemplate tid with
  | none => .error .notFound
  | some t => .ok (renderLoopSpec vars t.vars t.template)

/-! ## History store (`history.py`)

The backing JSON file is read once on construction and rewritten after every
mutation; we model the in-memory entry list and pass the wall-clock timestamp
explicitly. -/

/-- `HistoryEntry` from `models.py` (ids are Python ints, timestamps are
abstracted to an integer clock value). -/
structure HEntry where
  id : Int
  original : Str
  enhanced : Str
  category : TaskCategory
  tone : Tone
  timestamp : Int
  starred : Bool
  deriving DecidableEq

/-- Python `max(ids, default=0)`: the maximum of the list, `0` when empty. -/
def maxIdDefault0 : List Int → Int
  | [] => 0
  | x :: xs => xs.foldl max x

/-- `next_id = max((e.id for e in self._entries), default=0) + 1`. -/
def nextId (entries : List HEntry) : Int :=
  maxIdDefault0 (entries.map (·.id)) + 1

/-- `HistoryManager.add`: build the entry, append, return it. -/
def historyAdd (entries : List HEntry) (original enhanced : Str)
    (category : TaskCategory) (tone : Tone) (ts : Int) : HEntry × List HEntry :=
  let e : HEntry :=
    { id := nextId entries, original := original, enhanced := enhanced,
      category := category, tone := tone, timestamp := ts, starred := false }
  (e, entries ++ [e])

/-- `HistoryManager.count`. -/
def historyCount (entries : List HEntry) : Nat := entries.length

/-- `HistoryManager.star`: toggle the starred flag of the first entry with the
given id in place; return it (`none` if the id is unknown). -/
def starLoop : List HEntry → Int → Option HEntry × List HEntry
  | [], _ => (none, [])
  | e :: rest, eid =>
    if e.id = eid then
      let e' := { e with starred := !e.starred }
      (some e', e' :: rest)
    else
      let r := starLoop rest eid
      (r.1, e :: r.2)

/-- `HistoryManager.delete`: keep the entries whose id differs; report whether
anything was removed. -/
def historyDelete (entries : List HEntry) (eid : Int) : Bool × List HEntry :=
  let remaining := entries.filter (fun e => !(e.id == eid))
  (decide (remaining.length < entries.length), remaining)

/-- `HistoryManager.clear`: drop everything, return the prior count. -/
def historyClear (entries : List HEntry) : Nat × List HEntry :=
  (entries.length, [])

/-- History states reachable from the empty store by the mutating operations
of `HistoryManager` (`add`, `star`, `delete`, `clear`). -/
inductive ReachableHistory : List HEntry → Prop
  | empty : ReachableHistory []
  | add (st : List HEntry) (original enhanced : Str) (category : TaskCategory)
      (tone : Tone) (ts : Int) : ReachableHistory st →
      ReachableHistory (historyAdd st original enhanced category tone ts).2
  | star (st : List HEntry) (eid : Int) : ReachableHistory st →
      ReachableHistory (starLoop st eid).2
  | delete (st : List HEntry) (eid : Int) : ReachableHistory st →
      ReachableHistory (historyDelete st eid).2
  | clear (st : List HEntry) : ReachableHistory st →
      ReachableHistory (historyClear st).2

/-- The entry list is strictly increasing by id. -/
def idsSorted (entries : List HEntry) : Prop :=
  List.Chain' (· < ·) (entries.map (·.id))

/-! ## JSON values and `json.loads` (used by `engine.py` step 1)

`PromptEngine.process` feeds `raw_prompt` to `json.loads` and falls back to a
default mapping only when parsing raises.  We embed JSON values and a
recursive-descent parser for Python's JSON grammar.  Number literals are kept
as their source tokens (their numeric value is never used by the engine). -/

/-- A parsed JSON value.  Object fields are kept in source order; lookups take
the last binding, as `json.loads` lets later duplicate keys win. -/
inductive JVal
  | jnull
  | jbool (b : Bool)
  | jnum (lit : Str)
  | jstr (s : Str)
  | jarr (items : List JVal)
  | jobj (fields : List (Str × JVal))

/-- JSON inter-token whitespace (space, tab, newline, carriage return). -/
def jsonWsChar (c : Char) : Bool :=
  c == ' ' || c == '\t' || c == '\n' || c == '\r'

/-- Skip JSON whitespace. -/
def skipJsonWs (s : Str) : Str := s.dropWhile jsonWsChar

/-- Hexadecimal digit test for `\u` escapes. -/
def isHexDig (c : Char) : Bool :=
  c.isDigit || decide (97 ≤ c.toNat ∧ c.toNat ≤ 102) || decide (65 ≤ c.toNat ∧ c.toNat ≤ 70)

/-- Value of a hexadecimal digit. -/
def hexVal (c : Char) : Nat :=
  if c.isDigit then c.toNat - 48
  else if decide (97 ≤ c.toNat) then c.toNat - 87
  else c.toNat - 55

/-- Single-character JSON string escapes. -/
def escChar : Char → Option Char
  | '"' => some '"'
  | '\\' => some '\\'
  | '/' => some '/'
  | 'b' => some '\x08'
  | 'f' => some '\x0c'
  | 'n' => some '\n'
  | 'r' => some '\r'
  | 't' => some '\t'
  | _ => none

/-- Parse the body of a JSON string (the opening quote already consumed),
returning the decoded characters and the rest.  Raw control characters are
rejected, as Python's strict-mode `json.loads` does.  (Astral characters via
surrogate pairs are out of scope for the modelled inputs.) -/
def parseJStr : Nat → Str → Option (Str × Str)
  | 0, _ => none
  | _, [] => none
  | fuel + 1, c :: rest =>
    if c == '"' then some ([], rest)
    else if c == '\\' then
      match rest with
      | [] => none
      | e :: rest2 =>
        if e == 'u' then
          match rest2 with
          | h1 :: h2 :: h3 :: h4 :: rest3 =>
            if isHexDig h1 && isHexDig h2 && isHexDig h3 && isHexDig h4 then
              let n := ((hexVal h1 * 16 + hexVal h2) * 16 + hexVal h3) * 16 + hexVal h4
              match parseJStr fuel rest3 with
              | some (s, r) => some (Char.ofNat n :: s, r)
              | none => none
            else none
          | _ => none
        else
          match escChar e with
          | some ec =>
            match parseJStr fuel rest2 with
            | some (s, r) => some (ec :: s, r)
            | none => none
          | none => none
    else if decide (c.toNat < 32) then none
    else
      match parseJStr fuel rest with
      | some (s, r) => some (c :: s, r)
      | none => none

/-- Parse the optional fraction part of a JSON number. -/
def parseJFrac : Str → Option (Str × Str)
  | '.' :: r =>
    let ds := r.takeWhile Char.isDigit
    if ds.isEmpty then none else some ('.' :: ds, r.dropWhile Char.isDigit)
  | s => some ([], s)

/-- Parse the optional exponent part of a JSON number. -/
def parseJExp : Str → Option (Str × Str)
  | [] => some ([], [])
  | c :: r =>
    if c == 'e' || c == 'E' then
      let signAndRest : Str × Str :=
        match r with
        | '+' :: rr => (['+'], rr)
        | '-' :: rr => (['-'], rr)
        | _ => ([], r)
      let ds := signAndRest.2.takeWhile Char.isDigit
      if ds.isEmpty then none
      else some (c :: signAndRest.1 ++ ds, signAndRest.2.dropWhile Char.isDigit)
    else some ([], c :: r)

/-- Parse a JSON number token (`-? (0 | [1-9][0-9]*) frac? exp?`), returning
the literal and the rest. -/
def parseJNum (s : Str) : Option (Str × Str) :=
  let signAndRest : Str × Str :=
    match s with
    | '-' :: r => (['-'], r)
    | _ => ([], s)
  match signAndRest.2 with
  | [] => none
  | c :: _ =>
    if !c.isDigit then none
    else
      let intAndRest : Str × Str :=
        if c == '0' then ([c], signAndRest.2.drop 1)
        else (signAndRest.2.takeWhile Char.isDigit, signAndRest.2.dropWhile Char.isDigit)
      match parseJFrac intAndRest.2 with
      | none => none
      | some (fp, r2) =>
        match parseJExp r2 with
        | none => none
        | some (ep, r3) => some (signAndRest.1 ++ intAndRest.1 ++ fp ++ ep, r3)

mutual

/-- Recursive-descent parser for one JSON value, fuel-bounded. -/
def parseJVal : Nat → Str → Option (JVal × Str)
  | 0, _ => none
  | Nat.succ fuel, s =>
    match s with
    | [] => none
    | c :: rest =>
      if c == '"' then
        match parseJStr (rest.length + 1) rest with
        | some (str, r) => some (.jstr str, r)
        | none => none
      else if leadsWith (S "null") s then some (.jnull, s.drop 4)
      else if leadsWith (S "true") s then some (.jbool true, s.drop 4)
      else if leadsWith (S "false") s then some (.jbool false, s.drop 5)
      else if c == '[' then
        match skipJsonWs rest with
        | ']' :: r2 => some (.jarr [], r2)
        | r1 =>
          match parseJArrTail fuel r1 with
          | some (items, r) => some (.jarr items, r)
          | none => none
      else if c == '\x7b' then
        match skipJsonWs rest with
        | '\x7d' :: r2 => some (.jobj [], r2)
        | r1 =>
          match parseJObjTail fuel r1 with
          | some (fields, r) => some (.jobj fields, r)
          | none => none
      else
        match parseJNum s with
        | some (tok, r) => some (.jnum tok, r)
        | none => none

/-- Nonempty array tail: value (`, value`)* `]`. -/
def parseJArrTail : Nat → Str → Option (List JVal × Str)
  | 0, _ => none
  | Nat.succ fuel, s =>
    match parseJVal fuel s with
    | none => none
    | some (v, r) =>
      match skipJsonWs r with
      | ',' :: r2 =>
        match parseJArrTail fuel (skipJsonWs r2) with
        | some (items, r3) => some (v :: items, r3)
        | none => none
      | ']' :: r2 => some ([v], r2)
      | _ => none

/-- Nonempty object tail: `"key" : value` (`, "key" : value`)* `}`. -/
def parseJObjTail : Nat → Str → Option (List (Str × JVal) × Str)
  | 0, _ => none
  | Nat.succ fuel, s =>
    match s with
    | '"' :: rest =>
      match parseJStr (rest.length + 1) rest with
      | none => none
      | some (key, r) =>
        match skipJsonWs r with
        | ':' :: r2 =>
          match parseJVal fuel (skipJsonWs r2) with
          | none => none
          | some (v, r3) =>
            match skipJsonWs r3 with
            | ',' :: r4 =>
              match parseJObjTail fuel (skipJsonWs r4) with
              | some (fields, r5) => some ((key, v) :: fields, r5)
              | none => none
            | '\x7d' :: r4 => some ([(key, v)], r4)
            | _ => none
        | _ => none
    | _ => none

end

/-- `json.loads`: parse a full document, requiring only whitespace after the
value; `none` models a raised `JSONDecodeError`.  The fuel `2*n+4` dominates
the parser's consumption (at most two fuel units per input character). -/
def jsonLoads (s : Str) : Option JVal :=
  match parseJVal (2 * s.length + 4) (skipJsonWs s) with
  | some (v, r) => if (skipJsonWs r).isEmpty then some v else none
  | none => none

/-- Whether a raw prompt parses as a structured key-to-text mapping (a JSON
object whose values are all strings) — the payload shape `render_template`
can consume without raising. -/
def parsesAsStrMapping (s : Str) : Bool :=
  match jsonLoads s with
  | some (.jobj fields) =>
    fields.all (fun p => match p.2 with | .jstr _ => true | _ => false)
  | _ => false

/-! ## Orchestrator (`engine.py`) -/

/-- `PromptRequest` from `models.py`. -/
structure PromptRequest where
  raw_prompt : Str
  tone : Tone
  category : Option TaskCategory
  context : Option Str
  auto_enhance : Bool
  template_id : Option Str

/-- `EnhancedPrompt` from `models.py` (the creation timestamp is immaterial to
the claims and omitted). -/
structure EnhancedPrompt where
  original : Str
  enhanced : Str
  category : TaskCategory
  tone : Tone
  techniques_applied : List Str
  deriving DecidableEq

/-- Python dict lookup on a parsed JSON object: later duplicate keys win. -/
def jGetLast (fields : List (Str × JVal)) (k : Str) : Option JVal :=
  (fields.reverse.find? (fun p => p.1 == k)).map (·.2)

/-- The `render_template` substitution loop when the engine hands it a parsed
JSON object: `variables.get(var, f"[{var}]")` succeeds, and
`result.replace(...)` raises `TypeError` on a non-string value. -/
def renderLoopJ (fields : List (Str × JVal)) : List Str → Str → Except PluginError Str
  | [], acc => .ok acc
  | v :: rest, acc =>
    match jGetLast fields v with
    | none => renderLoopJ fields rest (pyReplace acc (placeholder v) (brackVar v))
    | some (.jstr sv) => renderLoopJ fields rest (pyReplace acc (placeholder v) sv)
    | some _ => .error .typeErr

/-- `render_template(template_id, variables)` as invoked by the engine, where
`variables` is whatever `json.loads` produced (or the fallback dict): a
non-dict value raises `AttributeError` at the first `variables.get` call —
i.e. only when the template declares at least one variable. -/
def render_template_vars (tid : Str) (v : JVal) : Except PluginError Str :=
  match lookupTemplate tid with
  | none => .error .notFound
  | some t =>
    match v with
    | .jobj fields => renderLoopJ fields t.vars t.template
    | _ => if t.vars.isEmpty then .ok t.template else .error .attributeErr

/-- The fallback variable dict
`{"task_description": base_prompt, "content": base_prompt}`. -/
def fallbackVars (raw : Str) : JVal :=
  .jobj [(S "task_description", .jstr raw), (S "content", .jstr raw)]

/-- Step 1 of `PromptEngine.process`: if a (truthy) template id is set, parse
`raw_prompt` as JSON — on a parse error use the fallback dict — and render the
template; otherwise the raw prompt passes through. -/
def resolveBase (req : PromptRequest) : Except PluginError Str :=
  match req.template_id with
  | none => .ok req.raw_prompt
  | some tid =>
    if tid.isEmpty then .ok req.raw_prompt
    else
      let v : JVal :=
        match jsonLoads req.raw_prompt with
        | some v => v
        | none => fallbackVars req.raw_prompt
      render_template_vars tid v

/-- `request.category or TaskCategory.general` (enum members are truthy). -/
def categoryOrGeneral : Option TaskCategory → TaskCategory
  | some c => c
  | none => .general

/-- Appending the labeled context block when the context is truthy
(both branches of `process` use this text). -/
def appendCtxBlock (b : Str) (ctx : Option Str) : Str :=
  if ctxTruthy ctx then b ++ S "\n\nAdditional context:\n" ++ ctxVal ctx else b

/-- `PromptEngine.process`: template step, enhancement (or pass-through with
context), result construction, history append.  The wall-clock timestamp of
the stored entry is passed explicitly. -/
def processEngine (req : PromptRequest) (hist : List HEntry) (ts : Int) :
    Except PluginError (EnhancedPrompt × List HEntry) :=
  match resolveBase req with
  | .error e => .error e
  | .ok base =>
    let triple : Str × TaskCategory × List Str :=
      if req.auto_enhance then
        enhance_prompt base req.tone req.category req.context
      else
        (appendCtxBlock base req.context, categoryOrGeneral req.category, [])
    let result : EnhancedPrompt :=
      { original := req.raw_prompt, enhanced := triple.1,
        category := triple.2.1, tone := req.tone,
        techniques_applied := triple.2.2 }
    .ok (result,
      (historyAdd hist result.original result.enhanced result.category result.tone ts).2)

/-! ## Helper lemmas -/

theorem wcAux_append (x : Str) : ∀ (b : Bool) (y : Str),
    wcAux b (x ++ y) = wcAux b x + wcAux (flagAfter b x) y := by
  induction x with
  | nil => intro b y; simp [wcAux, flagAfter]
  | cons c xs ih =>
    intro b y
    cases hc : pyWs c <;>
      simp [wcAux, flagAfter, hc, ih, Nat.add_assoc]

theorem wcAux_nl2 (b : Bool) (z : Str) : wcAux b (S "\n\n" ++ z) = wcAux false z := by
  have h : pyWs '\n' = true := rfl
  show wcAux b ('\n' :: '\n' :: z) = wcAux false z
  simp [wcAux, h]

/-- After role framing and tone styling the accumulated prompt always has at
least 8 words, whatever the stripped raw text contributes. -/
theorem wordCount_role_tone_ge (d : TaskCategory) (t : Tone) (s : Str) :
    8 ≤ wordCount ((add_role_framing s d).1 ++ S "\n\n" ++ get_tone_instruction t) := by
  have hrt : 8 ≤ wordCount (roleText d) + wordCount (get_tone_instruction t) := by
    cases d <;> cases t <;> decide
  show 8 ≤ wcAux false ((roleText d ++ S "\n\n" ++ s) ++ S "\n\n" ++ get_tone_instruction t)
  simp only [List.append_assoc]
  rw [wcAux_append, wcAux_nl2, wcAux_append, wcAux_nl2]
  simp only [wordCount] at hrt
  omega

/-- The specificity-boost condition of `enhance_prompt`: the raw word count
when positive, else the word count of the role-framed, tone-styled prompt,
compared against 8. -/
def specApplies (raw : Str) (tone : Tone) (category : Option TaskCategory) : Bool :=
  (add_specificity
    ((add_role_framing (pyStrip raw) (resolvedCategory raw category)).1
      ++ S "\n\n" ++ get_tone_instruction tone)
    (wordCount raw)).2

/-- The structure-guidance condition: the resolved category has a hint. -/
def structApplies (raw : Str) (category : Option TaskCategory) : Bool :=
  (structureHint (resolvedCategory raw category)).isSome

/-- The six technique tags in pipeline order. -/
def canonicalTechniques : List Str :=
  [S "role_framing", S "tone_styling", S "specificity_boost",
   S "structure_guidance", S "context_injection", S "quality_guardrails"]

/-- The techniques list of `enhance_prompt` in closed form. -/
theorem techniques_eq (raw : Str) (tone : Tone) (category : Option TaskCategory)
    (ctx : Option Str) :
    (enhance_prompt raw tone category ctx).2.2
      = [S "role_framing", S "tone_styling"]
        ++ (if specApplies raw tone category then [S "specificity_boost"] else [])
        ++ (if structApplies raw category then [S "structure_guidance"] else [])
        ++ (if ctxTruthy ctx then [S "context_injection"] else [])
        ++ [S "quality_guardrails"] := by
  unfold enhance_prompt specApplies structApplies
  rcases hsh : structureHint (resolvedCategory raw category) with _ | hint <;>
    simp [add_role_framing, add_quality_guardrails, add_structure_request, hsh]

/-! ## Claim theorems -/

/-- C5: `HistoryManager.add` assigns the new entry the maximum existing id
(0 on an empty store) plus one and increases the count by exactly one; after
`clear` the count is 0 and the next `add` yields id 1. -/
theorem history_add_clear_spec (entries : List HEntry) (original enhanced : Str)
    (category : TaskCategory) (tone : Tone) (ts : Int) :
    (historyAdd entries original enhanced category tone ts).1.id
        = maxIdDefault0 (entries.map (·.id)) + 1
    ∧ historyCount (historyAdd entries original enhanced category tone ts).2
        = historyCount entries + 1
    ∧ historyCount (historyClear entries).2 = 0
    ∧ (historyAdd (historyClear entries).2 original enhanced category tone ts).1.id = 1 := by
  refine ⟨rfl, ?_, rfl, rfl⟩
  simp [historyAdd, historyCount]

/-- C8: `render_template` fails with the not-found error exactly on unknown
template ids, and returns rendered text for every known id and mapping. -/
theorem render_template_notfound_spec (tid : Str) (vars : List (Str × Str)) :
    (lookupTemplate tid = none → render_template tid vars = .error .notFound)
    ∧ ∀ t, lookupTemplate tid = some t → ∃ s, render_template tid vars = .ok s := by
  constructor
  · intro h; simp [render_template, h]
  · intro t h
    refine ⟨renderLoop vars t.vars t.template, ?_⟩
    simp [render_template, h]

/-- Witness for C8 at a concrete unknown id and a concrete known id. -/
theorem render_template_notfound_witness :
    render_template (S "nope") [] = .error .notFound
    ∧ ∃ s, render_template (S "code-write") [] = .ok s :=
  ⟨(render_template_notfound_spec (S "nope") []).1 rfl,
   (render_template_notfound_spec (S "code-write") []).2 tCodeWrite rfl⟩

/-- C4: the techniques list is exactly the subsequence of the canonical
six-technique order in which role framing, tone styling and quality
guardrails always appear and the other three appear exactly when their
conditions hold. -/
theorem techniques_order_spec (raw : Str) (tone : Tone) (category : Option TaskCategory)
    (ctx : Option Str) :
    (enhance_prompt raw tone category ctx).2.2
      = [S "role_framing", S "tone_styling"]
        ++ (if specApplies raw tone category then [S "specificity_boost"] else [])
        ++ (if structApplies raw category then [S "structure_guidance"] else [])
        ++ (if ctxTruthy ctx then [S "context_injection"] else [])
        ++ [S "quality_guardrails"]
    ∧ (enhance_prompt raw tone category ctx).2.2.Sublist canonicalTechniques
    ∧ S "role_framing" ∈ (enhance_prompt raw tone category ctx).2.2
    ∧ S "tone_styling" ∈ (enhance_prompt raw tone category ctx).2.2
    ∧ S "quality_guardrails" ∈ (enhance_prompt raw tone category ctx).2.2 := by
  refine ⟨techniques_eq raw tone category ctx, ?_, ?_, ?_, ?_⟩ <;>
    rw [techniques_eq raw tone category ctx] <;>
    split_ifs <;> decide

set_option maxRecDepth 100000 in
/-- C2 counterexample: the whitespace-only input `" "` has fewer than 8 words
(namely zero), yet `specificity_boost` is absent — `_add_specificity` falls
back to counting the already-enhanced text, which has at least 8 words. -/
theorem specificity_zero_words_cex :
    wordCount (S " ") < 8
    ∧ S "specificity_boost" ∉ (enhance_prompt (S " ") Tone.professional none none).2.2 := by
  exact ⟨by decide, by decide⟩

/-- Membership of the boost tag in the assembled techniques list depends only
on the specificity condition. -/
theorem boost_mem_iff (b1 b2 b3 : Bool) :
    (S "specificity_boost" ∈
      ([S "role_framing", S "tone_styling"]
        ++ (if b1 then [S "specificity_boost"] else [])
        ++ (if b2 then [S "structure_guidance"] else [])
        ++ (if b3 then [S "context_injection"] else [])
        ++ [S "quality_guardrails"])) ↔ b1 = true := by
  cases b1 <;> cases b2 <;> cases b3 <;> decide

/-- C2 (amended): with default settings and no forced category,
`specificity_boost` is in the techniques list iff the original raw input has
at least one and fewer than 8 whitespace-separated words (for zero-word
inputs the check falls back to the word count of the role-framed and
tone-styled text, which always has at least 8 words). -/
theorem specificity_boost_iff (raw : Str) (tone : Tone) (ctx : Option Str) :
    S "specificity_boost" ∈ (enhance_prompt raw tone none ctx).2.2
      ↔ (0 < wordCount raw ∧ wordCount raw < 8) := by
  rw [techniques_eq raw tone none ctx, boost_mem_iff]
  unfold specApplies add_specificity
  by_cases h0 : 0 < wordCount raw
  · rw [if_pos h0]
    by_cases h8 : wordCount raw < 8
    · rw [if_pos h8]; simp [h0, h8]
    · rw [if_neg h8]; simp [h0, h8]
  · rw [if_neg h0]
    have hge := wordCount_role_tone_ge (resolvedCategory raw none) tone (pyStrip raw)
    rw [if_neg (by omega)]
    simp
    omega

/-- C10: the enhanced text always contains the whitespace-stripped original
input as a contiguous substring — the persona sentence is prepended and all
other additions appended. -/
theorem add_specificity_append (p : Str) (owc : Nat) :
    ∃ s, (add_specificity p owc).1 = p ++ s := by
  simp only [add_specificity]
  split_ifs
  all_goals first
    | exact ⟨specificityText, rfl⟩
    | exact ⟨[], by simp⟩

theorem add_structure_request_append (p : Str) (d : TaskCategory) :
    ∃ s, (add_structure_request p d).1 = p ++ s := by
  unfold add_structure_request
  rcases structureHint d with _ | hint
  · exact ⟨[], by simp⟩
  · exact ⟨hint, rfl⟩

/-- C10: the enhanced text always contains the whitespace-stripped original
input as a contiguous substring — the persona sentence is prepended and all
other additions appended. -/
theorem enhanced_contains_stripped (raw : Str) (tone : Tone)
    (category : Option TaskCategory) (ctx : Option Str) :
    (∃ suffix, (enhance_prompt raw tone category ctx).1
        = roleText (resolvedCategory raw category) ++ S "\n\n" ++ pyStrip raw ++ suffix)
    ∧ ∃ pre post, (enhance_prompt raw tone category ctx).1 = pre ++ pyStrip raw ++ post := by
  obtain ⟨s3, h3⟩ := add_specificity_append
    ((add_role_framing (pyStrip raw) (resolvedCategory raw category)).1
      ++ S "\n\n" ++ get_tone_instruction tone) (wordCount raw)
  obtain ⟨s4, h4⟩ := add_structure_request_append
    ((add_specificity ((add_role_framing (pyStrip raw) (resolvedCategory raw category)).1
      ++ S "\n\n" ++ get_tone_instruction tone) (wordCount raw)).1)
    (resolvedCategory raw category)
  have key : ∃ suffix, (enhance_prompt raw tone category ctx).1
      = roleText (resolvedCategory raw category) ++ S "\n\n" ++ pyStrip raw ++ suffix := by
    unfold enhance_prompt
    simp only [add_quality_guardrails]
    cases hctx : ctxTruthy ctx
    · refine ⟨S "\n\n" ++ get_tone_instruction tone ++ s3 ++ s4 ++ guardrailsText, ?_⟩
      rw [if_neg (by decide), h4, h3]
      simp [add_role_framing, List.append_assoc]
    · refine ⟨S "\n\n" ++ get_tone_instruction tone ++ s3 ++ s4
        ++ (S "\n\nAdditional context:\n" ++ ctxVal ctx) ++ guardrailsText, ?_⟩
      rw [if_pos rfl, h4, h3]
      simp [add_role_framing, List.append_assoc]
  rcases key with ⟨suffix, hsuf⟩
  exact ⟨⟨suffix, hsuf⟩, roleText (resolvedCategory raw category) ++ S "\n\n", suffix, by rw [hsuf]⟩

/-! ### C3: category detection -/

theorem argmaxFirst_of_le (f : TaskCategory → Nat) :
    ∀ (l : List TaskCategory) (best : TaskCategory),
      (∀ c ∈ l, f c ≤ f best) → argmaxFirst f l best = best := by
  intro l
  induction l with
  | nil => intro best _; rfl
  | cons c rest ih =>
    intro best h
    have hc := h c (by simp)
    simp only [argmaxFirst]
    rw [if_neg (by omega)]
    exact ih best (fun x hx => h x (by simp [hx]))

theorem argmaxFirst_of_strict (f : TaskCategory → Nat) :
    ∀ (l : List TaskCategory) (best cat : TaskCategory),
      cat ∈ l → f best < f cat → (∀ c ∈ l, c ≠ cat → f c < f cat) →
      argmaxFirst f l best = cat := by
  intro l
  induction l with
  | nil => intro best cat h; cases h
  | cons c rest ih =>
    intro best cat hmem hbest hmax
    simp only [argmaxFirst]
    by_cases hceq : c = cat
    · subst hceq
      rw [if_pos hbest]
      apply argmaxFirst_of_le
      intro x hx
      by_cases hxc : x = c
      · simp [hxc]
      · exact le_of_lt (hmax x (by simp [hx]) hxc)
    · have hclt : f c < f cat := hmax c (by simp) hceq
      have hmem' : cat ∈ rest := by
        rcases List.mem_cons.mp hmem with h | h
        · exact absurd h.symm hceq
        · exact h
      by_cases hlt : f best < f c
      · rw [if_pos hlt]
        exact ih c cat hmem' hclt (fun x hx hne => hmax x (by simp [hx]) hne)
      · rw [if_neg hlt]
        exact ih best cat hmem' hbest (fun x hx hne => hmax x (by simp [hx]) hne)

/-- C3: `detect_category` returns `debugging` whenever both `debugging` and
`coding` score positively and debugging's score is at least coding's;
otherwise it returns the category with the strictly highest score, and
`general` when every category scores zero. -/
theorem detect_category_spec (text : Str) :
    (0 < catScore text .debugging → 0 < catScore text .coding →
      catScore text .coding ≤ catScore text .debugging →
      detect_category text = .debugging)
    ∧ ((∀ c, catScore text c = 0) → detect_category text = .general)
    ∧ (∀ cat, ¬(0 < catScore text .debugging ∧ 0 < catScore text .coding ∧
          catScore text .coding ≤ catScore text .debugging) →
        0 < catScore text cat →
        (∀ c, c ≠ cat → catScore text c < catScore text cat) →
        detect_category text = cat) := by
  refine ⟨?_, ?_, ?_⟩
  · intro h1 h2 h3
    unfold detect_category
    rw [if_pos ⟨h1, h2, h3⟩]
  · intro hz
    unfold detect_category
    rw [if_neg (by simp [hz])]
    simp only [hz _]
    rw [if_neg (by omega)]
  · intro cat hnot hpos hmax
    unfold detect_category
    rw [if_neg hnot]
    have hbest : argmaxFirst (catScore text) (categoryOrder.drop 1) .coding = cat := by
      by_cases hc : cat = TaskCategory.coding
      · subst hc
        apply argmaxFirst_of_le
        intro c hcmem
        have hne : c ≠ TaskCategory.coding := by
          intro heq
          subst heq
          simp [categoryOrder] at hcmem
        exact le_of_lt (hmax c hne)
      · apply argmaxFirst_of_strict
        · cases cat <;> simp [categoryOrder]
          exact absurd rfl hc
        · exact hmax TaskCategory.coding (fun heq => hc heq.symm)
        · intro c _ hne
          exact hmax c hne
    rw [hbest, if_pos hpos]

/-- Witness for C3: a tied debugging/coding input, a strict-maximum input and
an all-zero input. -/
theorem detect_category_spec_witness :
    detect_category (S "fix this bug") = TaskCategory.debugging
    ∧ detect_category (S "zzz") = TaskCategory.general
    ∧ detect_category (S "write an essay") = TaskCategory.writing :=
  ⟨(detect_category_spec (S "fix this bug")).1 (by decide) (by decide) (by decide),
   (detect_category_spec (S "zzz")).2.1 (by decide),
   (detect_category_spec (S "write an essay")).2.2 TaskCategory.writing
     (by decide) (by decide) (by decide)⟩

/-! ### C6: template rendering -/

theorem splitFuel_ne_nil (pat : Str) (fuel : Nat) (text : Str) :
    splitFuel pat fuel text ≠ [] := by
  cases fuel with
  | zero => simp [splitFuel]
  | succ f =>
    simp only [splitFuel]
    rcases findOcc pat text with _ | i <;> simp

theorem joinWith_cons (sep a : Str) (l : List Str) (h : l ≠ []) :
    joinWith sep (a :: l) = a ++ sep ++ joinWith sep l := by
  cases l with
  | nil => exact absurd rfl h
  | cons b t => rfl

theorem replaceFuel_eq_joinWith (pat rep : Str) :
    ∀ (fuel : Nat) (text : Str),
      replaceFuel pat rep fuel text = joinWith rep (splitFuel pat fuel text) := by
  intro fuel
  induction fuel with
  | zero => intro text; rfl
  | succ f ih =>
    intro text
    simp only [replaceFuel, splitFuel]
    rcases findOcc pat text with _ | i
    · rfl
    · dsimp only
      rw [joinWith_cons _ _ _ (splitFuel_ne_nil _ _ _), ih]

theorem pyReplace_eq_substEveryOcc (text pat rep : Str) (h : pat.isEmpty = false) :
    pyReplace text pat rep = substEveryOcc text pat rep := by
  simp [pyReplace, substEveryOcc, pySplitOn, h, replaceFuel_eq_joinWith]

theorem renderLoop_eq_spec (vars : List (Str × Str)) (vs : List Str) :
    ∀ acc, renderLoop vars vs acc = renderLoopSpec vars vs acc := by
  induction vs with
  | nil => intro acc; rfl
  | cons v rest ih =>
    intro acc
    simp only [renderLoop, renderLoopSpec]
    rw [pyReplace_eq_substEveryOcc _ _ _ (by simp [placeholder])]
    exact ih _

theorem find?_filter_of_imp {α : Type} (l : List α) (p q : α → Bool)
    (h : ∀ a, p a = true → q a = true) : (l.filter q).find? p = l.find? p := by
  induction l with
  | nil => rfl
  | cons a t ih =>
    cases hq : q a
    · have hp : p a = false := by
        cases hpa : p a
        · rfl
        · rw [h a hpa] at hq; cases hq
      simp [List.filter_cons, hq, List.find?_cons, hp, ih]
    · cases hpa : p a <;> simp [List.filter_cons, hq, List.find?_cons, hpa, ih]

theorem getVar_filter (vars : List (Str × Str)) (keys : List Str) (k : Str)
    (hk : k ∈ keys) :
    getVar (vars.filter (fun p => decide (p.1 ∈ keys))) k = getVar vars k := by
  unfold getVar
  rw [find?_filter_of_imp]
  intro a ha
  have heq : a.1 = k := by simpa using ha
  simp [heq, hk]

theorem renderLoop_filter (vars : List (Str × Str)) (keys : List Str) :
    ∀ (vs : List Str), (∀ v ∈ vs, v ∈ keys) → ∀ acc,
      renderLoop (vars.filter (fun p => decide (p.1 ∈ keys))) vs acc
        = renderLoop vars vs acc := by
  intro vs
  induction vs with
  | nil => intro _ acc; rfl
  | cons v rest ih =>
    intro hsub acc
    simp only [renderLoop]
    rw [getVar_filter _ _ _ (hsub v (by simp))]
    exact ih (fun x hx => hsub x (by simp [hx])) _

/-- C6: `render_template` refines the spec-side algorithm — for each declared
variable in declared order it substitutes every literal occurrence of the
placeholder token with the supplied value, or with the bracketed `[varname]`
marker when absent — and unknown keys in the supplied mapping are ignored. -/
theorem render_refinement (tid : Str) (vars : List (Str × Str)) :
    render_template tid vars = render_template_spec tid vars
    ∧ ∀ t, lookupTemplate tid = some t →
        render_template tid vars
          = render_template tid (vars.filter (fun p => decide (p.1 ∈ t.vars))) := by
  constructor
  · unfold render_template render_template_spec
    rcases lookupTemplate tid with _ | t
    · rfl
    · simp [renderLoop_eq_spec]
  · intro t h
    unfold render_template
    rw [h]
    dsimp only
    rw [renderLoop_filter vars t.vars t.vars (fun v hv => hv)]

/-- Witness for C6 at the `eli5` template with one declared and one unknown
key supplied. -/
theorem render_refinement_witness :
    (render_template (S "eli5") [(S "concept", S "magnets"), (S "junk", S "x")]
      = render_template_spec (S "eli5") [(S "concept", S "magnets"), (S "junk", S "x")])
    ∧ render_template (S "eli5") [(S "concept", S "magnets"), (S "junk", S "x")]
      = render_template (S "eli5")
          ([(S "concept", S "magnets"), (S "junk", S "x")].filter
            (fun p => decide (p.1 ∈ tEli5.vars))) :=
  ⟨(render_refinement (S "eli5") [(S "concept", S "magnets"), (S "junk", S "x")]).1,
   (render_refinement (S "eli5") [(S "concept", S "magnets"), (S "junk", S "x")]).2 tEli5 rfl⟩

/-! ### C9: history id invariant -/

theorem le_foldl_max_init : ∀ (xs : List Int) (a : Int), a ≤ xs.foldl max a
  | [], _ => le_refl _
  | x :: xs, a => le_trans (le_max_left a x) (le_foldl_max_init xs (max a x))

theorem mem_le_foldl_max : ∀ (xs : List Int) (a : Int), ∀ x ∈ xs, x ≤ xs.foldl max a := by
  intro xs
  induction xs with
  | nil => intro a x hx; cases hx
  | cons y ys ih =>
    intro a x hx
    rcases List.mem_cons.mp hx with rfl | hx'
    · exact le_trans (le_max_right a x) (le_foldl_max_init ys (max a x))
    · exact ih (max a y) x hx'

theorem mem_le_maxIdDefault0 (l : List Int) (x : Int) (hx : x ∈ l) :
    x ≤ maxIdDefault0 l := by
  cases l with
  | nil => cases hx
  | cons y ys =>
    rcases List.mem_cons.mp hx with rfl | hx'
    · exact le_foldl_max_init ys x
    · exact mem_le_foldl_max ys y x hx'

theorem starLoop_ids (eid : Int) :
    ∀ (st : List HEntry), ((starLoop st eid).2).map (·.id) = st.map (·.id) := by
  intro st
  induction st with
  | nil => rfl
  | cons e rest ih =>
    simp only [starLoop]
    by_cases h : e.id = eid
    · simp [h]
    · simp [h, ih]

/-- C9: starting from the empty store, every reachable history state has a
strictly increasing id sequence, hence pairwise distinct ids. -/
theorem history_ids_invariant (st : List HEntry) (h : ReachableHistory st) :
    idsSorted st ∧ (st.map (·.id)).Pairwise (· ≠ ·) := by
  have hsorted : idsSorted st := by
    induction h with
    | empty => simp [idsSorted]
    | add st o e c t ts hst ih =>
      unfold idsSorted at *
      simp only [historyAdd, List.map_append]
      rw [List.chain'_append]
      refine ⟨ih, by simp, ?_⟩
      intro x hx y hy
      simp only [List.map_cons, List.map_nil, List.head?_cons, Option.mem_def,
        Option.some.injEq] at hy
      have hx' : x ∈ st.map (·.id) := List.mem_of_mem_getLast? hx
      have hle : x ≤ maxIdDefault0 (st.map (·.id)) := mem_le_maxIdDefault0 _ _ hx'
      subst hy
      show x < nextId st
      unfold nextId
      omega
    | star st eid hst ih =>
      unfold idsSorted at *
      rw [starLoop_ids]
      exact ih
    | delete st eid hst ih =>
      unfold idsSorted at *
      exact ih.sublist (((List.filter_sublist st).map (·.id)))
    | clear st hst ih => simp [idsSorted, historyClear]
  refine ⟨hsorted, ?_⟩
  have hp := (List.chain'_iff_pairwise).mp hsorted
  exact hp.imp (fun hlt => ne_of_lt hlt)

/-- Witness for C9 at a store reached by two adds, a star and a delete. -/
theorem history_ids_invariant_witness :
    idsSorted (starLoop (historyAdd
        (historyAdd [] (S "a") (S "b") TaskCategory.general Tone.professional 0).2
        (S "c") (S "d") TaskCategory.coding Tone.casual 1).2 1).2
    ∧ (((starLoop (historyAdd
        (historyAdd [] (S "a") (S "b") TaskCategory.general Tone.professional 0).2
        (S "c") (S "d") TaskCategory.coding Tone.casual 1).2 1).2).map (·.id)).Pairwise (· ≠ ·) :=
  history_ids_invariant _
    (ReachableHistory.star _ 1
      (ReachableHistory.add _ (S "c") (S "d") TaskCategory.coding Tone.casual 1
        (ReachableHistory.add _ (S "a") (S "b") TaskCategory.general Tone.professional 0
          ReachableHistory.empty)))

/-! ### C1: template fallback, and C7: processing without auto-enhance -/

theorem jGetLast_fallback (raw k : Str) :
    jGetLast [(S "task_description", JVal.jstr raw), (S "content", JVal.jstr raw)] k
      = (getVar [(S "task_description", raw), (S "content", raw)] k).map JVal.jstr := by
  have hne : ¬(S "task_description" = S "content") := by decide
  unfold jGetLast getVar
  cases h1 : (S "task_description" == k) <;> cases h2 : (S "content" == k)
  · simp [List.find?, h1, h2]
  · simp [List.find?, h1, h2]
  · simp [List.find?, h1, h2]
  · exact absurd ((eq_of_beq h1).trans (eq_of_beq h2).symm) hne

theorem renderLoopJ_strings (fields : List (Str × JVal)) (assoc : List (Str × Str))
    (hcorr : ∀ k, jGetLast fields k = (getVar assoc k).map JVal.jstr) :
    ∀ (vs : List Str) (acc : Str),
      renderLoopJ fields vs acc = .ok (renderLoop assoc vs acc) := by
  intro vs
  induction vs with
  | nil => intro acc; rfl
  | cons v rest ih =>
    intro acc
    simp only [renderLoopJ, renderLoop]
    rcases hg : getVar assoc v with _ | sv
    · simp only [hcorr v, hg, Option.map_none', Option.getD_none]
      exact ih _
    · simp only [hcorr v, hg, Option.map_some', Option.getD_some]
      exact ih _

/-- C1 counterexample: the raw prompt `"5"` cannot be parsed as a structured
key-to-text mapping, yet with a set (and known) template id `process` does not
recover via the fallback mapping: `json.loads` succeeds with the integer `5`,
`variables.get` raises `AttributeError`, and the error escapes to the caller. -/
theorem template_fallback_cex :
    parsesAsStrMapping (S "5") = false
    ∧ processEngine
        { raw_prompt := S "5", tone := Tone.professional, category := none,
          context := none, auto_enhance := true, template_id := some (S "code-write") }
        [] 0
      = .error .attributeErr :=
  ⟨rfl, rfl⟩

/-- C1 (amended): for every request with a known, truthy template id whose
raw prompt fails JSON parsing altogether, `process` recovers locally via the
fallback mapping `{task_description: raw, content: raw}`, renders the
template with it, and returns a result without surfacing any error.  (When
the raw prompt parses as JSON that is not a key-to-text mapping, the render
step raises instead, as the counterexample shows.) -/
theorem template_fallback_on_parse_error (req : PromptRequest) (hist : List HEntry)
    (ts : Int) (tid : Str) (t : TemplateInfo)
    (htid : req.template_id = some tid) (hne : tid.isEmpty = false)
    (hlook : lookupTemplate tid = some t)
    (hparse : jsonLoads req.raw_prompt = none) :
    resolveBase req = .ok (renderLoop
        [(S "task_description", req.raw_prompt), (S "content", req.raw_prompt)]
        t.vars t.template)
    ∧ ∃ r hist2, processEngine req hist ts = .ok (r, hist2) := by
  have hbase : resolveBase req = .ok (renderLoop
      [(S "task_description", req.raw_prompt), (S "content", req.raw_prompt)]
      t.vars t.template) := by
    unfold resolveBase
    rw [htid]
    dsimp only
    rw [if_neg (by simp [hne]), hparse]
    dsimp only [fallbackVars]
    unfold render_template_vars
    rw [hlook]
    exact renderLoopJ_strings _ _ (jGetLast_fallback req.raw_prompt) t.vars t.template
  refine ⟨hbase, ?_⟩
  unfold processEngine
  rw [hbase]
  exact ⟨_, _, rfl⟩

/-- Witness for C1 at a plain-English raw prompt (invalid JSON) and the
`code-write` template. -/
theorem template_fallback_witness :
    resolveBase
        { raw_prompt := S "hello world", tone := Tone.professional, category := none,
          context := none, auto_enhance := true, template_id := some (S "code-write") }
      = .ok (renderLoop
          [(S "task_description", S "hello world"), (S "content", S "hello world")]
          tCodeWrite.vars tCodeWrite.template)
    ∧ ∃ r hist2, processEngine
          { raw_prompt := S "hello world", tone := Tone.professional, category := none,
            context := none, auto_enhance := true, template_id := some (S "code-write") }
          [] 0
        = .ok (r, hist2) :=
  template_fallback_on_parse_error _ [] 0 (S "code-write") tCodeWrite rfl rfl rfl rfl

/-- C7: with `auto_enhance` false, `process` leaves the techniques list
empty, resolves the category to the override or `general`, and returns the
(possibly template-rendered) text with the labeled context block appended
exactly when the context is non-empty. -/
theorem process_no_enhance (req : PromptRequest) (hist : List HEntry) (ts : Int)
    (h : req.auto_enhance = false) :
    processEngine req hist ts = (resolveBase req).map (fun base =>
      let result : EnhancedPrompt :=
        { original := req.raw_prompt, enhanced := appendCtxBlock base req.context,
          category := categoryOrGeneral req.category, tone := req.tone,
          techniques_applied := [] }
      (result,
        (historyAdd hist result.original result.enhanced result.category
          result.tone ts).2)) := by
  unfold processEngine
  rcases hres : resolveBase req with e | base
  · rfl
  · simp [h, Except.map]

/-- Witness for C7 at a concrete request with context and no template. -/
theorem process_no_enhance_witness :
    processEngine
        { raw_prompt := S "hello", tone := Tone.professional, category := none,
          context := some (S "notes"), auto_enhance := false, template_id := none }
        [] 0
      = (resolveBase
          { raw_prompt := S "hello", tone := Tone.professional, category := none,
            context := some (S "notes"), auto_enhance := false, template_id := none }).map
          (fun base =>
            let result : EnhancedPrompt :=
              { original := S "hello", enhanced := appendCtxBlock base (some (S "notes")),
                category := categoryOrGeneral none, tone := Tone.professional,
                techniques_applied := [] }
            (result,
              (historyAdd [] result.original result.enhanced result.category
                result.tone 0).2)) :=
  process_no_enhance _ [] 0 rfl

end PromptPlugin
